import Mathlib

/-!
Shallow embedding of `src/resample_tools.py`.

Conventions of the embedding:
* Python floats are modelled as rationals (`ℚ`).
* A Python parameter that may be `None` is an `Option`.
* Python truthiness (`if res:`, `if not dst_height`) is modelled explicitly:
  `None` and `0` are falsy.
* Python `round` is round-half-to-even, modelled by `pyRound`.
* An assertion failure or a raised exception is modelled as `Bool` false or as
  an `Except.error` value, depending on the function.
-/

set_option autoImplicit false

namespace ResampleTools

/-- Python truthiness of an optional float: `None` and `0` are falsy. -/
def truthyQ : Option ℚ → Bool
  | none => false
  | some q => decide (q ≠ 0)

/-- Python truthiness of an optional int: `None` and `0` are falsy. -/
def truthyZ : Option ℤ → Bool
  | none => false
  | some n => decide (n ≠ 0)

/-- Python `round`: nearest integer, ties to the even neighbour. -/
def pyRound (q : ℚ) : ℤ :=
  let f : ℤ := ⌊q⌋
  if q - f < 1 / 2 then f
  else if q - f > 1 / 2 then f + 1
  else if f % 2 = 0 then f else f + 1

/-- A coordinate reference system, abstracted to the only attribute the source
consults: whether its units are projected (metres) or geographic (degrees). -/
structure CRS where
  is_projected : Bool
deriving DecidableEq

/-- Embedding of `validate_bounds_for_crs` (src/resample_tools.py lines 9-26).
Returns `true` when the assertion passes and `false` when it fires. -/
def validate_bounds_for_crs (crs : CRS) (bounds : ℚ × ℚ × ℚ × ℚ) : Bool :=
  let (left, bottom, right, top) := bounds
  if crs.is_projected then
    -- check that at least one of the bounds is outside of the degree-units range
    [left, bottom, right, top].any fun i => decide (i > 180) || decide (i < -180)
  else
    ([top, bottom].all fun i => decide (-90 ≤ i) && decide (i ≤ 90)) &&
    ([left, right].all fun i => decide (-180 ≤ i) && decide (i ≤ 180))

/-- The resolved output grid: per-axis resolution and pixel dimensions. -/
structure ResolvedGrid where
  xres : ℚ
  yres : ℚ
  height : ℤ
  width : ℤ
deriving DecidableEq

/-- Embedding of the resolution/dimension logic of `warp_image`
(src/resample_tools.py lines 54-62).  `none` models the Python errors raised
on that path: dividing by `None` (TypeError) or by zero (ZeroDivisionError). -/
def resolve_grid (left bottom right top : ℚ) (res : Option ℚ)
    (dst_height dst_width : Option ℤ) : Option ResolvedGrid :=
  let fallback : Option ResolvedGrid :=
    match dst_height, dst_width with
    | some h, some w =>
      if h = 0 ∨ w = 0 then none
      else some ⟨(right - left) / (w : ℚ), (top - bottom) / (h : ℚ), h, w⟩
    | _, _ => none
  match res with
  | none => fallback
  | some r =>
    if r = 0 then fallback
    else if truthyZ dst_height && truthyZ dst_width then
      match dst_height, dst_width with
      | some h, some w => some ⟨r, r, h, w⟩
      | _, _ => none
    else
      some ⟨r, r, pyRound ((top - bottom) / r), pyRound ((right - left) / r)⟩

/-- The affine transform `affine.Affine(xres, 0.0, left, 0.0, -1 * yres, top)`
built at src/resample_tools.py line 63. -/
structure AffineT where
  a : ℚ
  b : ℚ
  c : ℚ
  d : ℚ
  e : ℚ
  f : ℚ
deriving DecidableEq

/-- Embedding of `dst_transform` (src/resample_tools.py line 63). -/
def dst_transform_of (left top : ℚ) (g : ResolvedGrid) : AffineT :=
  ⟨g.xres, 0, left, 0, -1 * g.yres, top⟩

/-- The rasterio resampling kinds used by the source (`Resampling.nearest` is
the default argument of `warp_image`). -/
inductive Resampling where
  | nearest
  | bilinear
  | cubic
  | cubic_spline
  | lanczos
  | average
  | mode
deriving DecidableEq

/-- The `.name` attribute of a rasterio `Resampling` member. -/
def Resampling.name : Resampling → String
  | .nearest => "nearest"
  | .bilinear => "bilinear"
  | .cubic => "cubic"
  | .cubic_spline => "cubic_spline"
  | .lanczos => "lanczos"
  | .average => "average"
  | .mode => "mode"

/-- Values stored in the `vrt_options` dictionary of `warp_image`. -/
inductive PVal where
  | strVal : String → PVal
  | intVal : ℤ → PVal
  | ratVal : ℚ → PVal
  | resamp : Resampling → PVal
  | crsVal : CRS → PVal
  | transformVal : AffineT → PVal
deriving DecidableEq

/-- Embedding of the `vrt_options` dictionary built at src/resample_tools.py
lines 65-80.  A Python dict is modelled as a lookup function; the literal
`{**profile, "resampling": ..., ...}` makes the later, computed keys win over
same-named keys of `profile`, and the compression toggle then inserts or pops
the "compress" key. -/
def vrt_options (profile : String → Option PVal) (resampling : Resampling)
    (crs : CRS) (transform : AffineT) (height width : ℤ)
    (src_nodata nodata : ℚ) (deflate_compression : Bool) :
    String → Option PVal :=
  let merged : String → Option PVal := fun k =>
    if k = "resampling" then some (.resamp resampling)
    else if k = "crs" then some (.crsVal crs)
    else if k = "transform" then some (.transformVal transform)
    else if k = "height" then some (.intVal height)
    else if k = "width" then some (.intVal width)
    else if k = "src_nodata" then some (.ratVal src_nodata)
    else if k = "nodata" then some (.ratVal nodata)
    else profile k
  if deflate_compression then
    fun k => if k = "compress" then some (.strVal "deflate") else merged k
  else
    fun k => if k = "compress" then none else merged k

/-- Python `max` over a list (error on the empty list, hence `Option`). -/
def pymax : List ℚ → Option ℚ
  | [] => none
  | x :: xs => some (xs.foldl max x)

/-- Python `min` over a list (error on the empty list, hence `Option`). -/
def pymin : List ℚ → Option ℚ
  | [] => none
  | x :: xs => some (xs.foldl min x)

/-- A GeoJSON value: geometries, features and the nesting collections.  A
coordinate pair is (lon, lat), in GeoJSON order. -/
inductive GeoJSON where
  | point : ℚ → ℚ → GeoJSON
  | multiPoint : List (ℚ × ℚ) → GeoJSON
  | lineString : List (ℚ × ℚ) → GeoJSON
  | polygon : List (List (ℚ × ℚ)) → GeoJSON
  | geometryCollection : List GeoJSON → GeoJSON
  | feature : GeoJSON → GeoJSON
  | featureCollection : List GeoJSON → GeoJSON

mutual

/-- Modelled from the spec: the external `geojson.utils.coords` generator used
at src/resample_tools.py line 117 (the geojson library is not part of this
repository) yields every coordinate pair anywhere in the structure,
"flattening nested geometry collections/features automatically". -/
def coords : GeoJSON → List (ℚ × ℚ)
  | .point lon lat => [(lon, lat)]
  | .multiPoint cs => cs
  | .lineString cs => cs
  | .polygon rings => rings.flatten
  | .geometryCollection gs => coordsList gs
  | .feature g => coords g
  | .featureCollection gs => coordsList gs

/-- Coordinates of each member of a list of GeoJSON values, concatenated. -/
def coordsList : List GeoJSON → List (ℚ × ℚ)
  | [] => []
  | g :: gs => coords g ++ coordsList gs

end

/-- Embedding of `get_geojson_bounds` (src/resample_tools.py lines 114-122).
`none` models the ValueError that Python `min`/`max` raise on an empty
sequence. -/
def get_geojson_bounds (aoi_geojson : GeoJSON) : Option (ℚ × ℚ × ℚ × ℚ) :=
  let cs := coords aoi_geojson
  let lats := cs.map fun x => x.2
  let lons := cs.map fun x => x.1
  match pymin lats, pymax lats, pymin lons, pymax lons with
  | some lat_min, some lat_max, some lon_min, some lon_max =>
    some (lat_max, lon_min, lat_min, lon_max)
  | _, _, _, _ => none

/-- Decimal digits of `n` left-padded with zeros to width 4, as Python
formatting of the fractional part does. -/
def pad4 (n : ℕ) : String :=
  if n < 10 then "000" ++ toString n
  else if n < 100 then "00" ++ toString n
  else if n < 1000 then "0" ++ toString n
  else toString n

/-- Rendering of a signed multiple of 1/10000 with exactly four decimals. -/
def fmtScaled (scaled : ℤ) : List Char :=
  let sign : String := if scaled < 0 then "-" else ""
  let n := scaled.natAbs
  (sign ++ toString (n / 10000) ++ "." ++ pad4 (n % 10000)).toList

/-- Python `format(q, ".4f")` on the rational model: round half to even at
four decimal places, then render. -/
def fmt4 (q : ℚ) : List Char :=
  fmtScaled (pyRound (q * 10000))

/-- The replacement string of `str.replace` at src/resample_tools.py
lines 86-89: `.nodata{src_nodata}_{resampling.name}_{h}x{w}_res{yres:.4f}x{xres:.4f}.tif`.
The str() rendering of the src_nodata float is taken as an opaque string
(for the default `np.nan` it is "nan"). -/
def fname_suffix (srcNodataStr : String) (resampling : Resampling)
    (g : ResolvedGrid) : List Char :=
  (".nodata" ++ srcNodataStr ++ "_" ++ resampling.name ++ "_" ++
      toString g.height ++ "x" ++ toString g.width ++ "_res").toList ++
    fmt4 g.yres ++ "x".toList ++ fmt4 g.xres ++ ".tif".toList

/-- Python `p.split("/")[-1]`: the part of the path after the last slash. -/
def basename (p : List Char) : List Char :=
  (List.splitOn '/' p).getLastD []

/-- Python `str.replace` with a fixed nonempty pattern `p :: ps`: replace
every non-overlapping occurrence, scanning left to right. -/
def pyReplaceAux (p : Char) (ps rep : List Char) : List Char → List Char
  | [] => []
  | c :: rest =>
    if (p :: ps).isPrefixOf (c :: rest) then
      rep ++ pyReplaceAux p ps rep (rest.drop ps.length)
    else
      c :: pyReplaceAux p ps rep rest
termination_by l => l.length
decreasing_by
  · simp only [List.length_cons]
    exact Nat.lt_succ_of_le (List.length_drop _ _ ▸ Nat.sub_le _ _)
  · simp

/-- Python `s.replace(pat, rep)` (the empty pattern never arises here). -/
def pyReplace (s pat rep : List Char) : List Char :=
  match pat with
  | [] => s
  | p :: ps => pyReplaceAux p ps rep s

/-- The output path built at src/resample_tools.py lines 86-90:
`output_dir/` followed by the basename with every ".tif" occurrence replaced
by the descriptive suffix. -/
def out_filename (output_dir : List Char) (srcNodataStr : String)
    (resampling : Resampling) (g : ResolvedGrid) (p : List Char) : List Char :=
  output_dir ++
    ('/' :: pyReplace (basename p) ".tif".toList
      (fname_suffix srcNodataStr resampling g))

/-- The basename with everything from its last dot on removed (its stem). -/
def dropExt (s : List Char) : List Char :=
  if '.' ∈ s then (((s.reverse.dropWhile fun c => c ≠ '.').drop 1).reverse)
  else s

/-- Modelled from the spec: the output path as §6 of the spec describes it,
`output_dir/<original-stem><suffix>` where the suffix replaces the original
file extension.  Written from the words of the spec, to be compared with
`out_filename`, the path the source actually builds. -/
def spec_out_filename (output_dir : List Char) (srcNodataStr : String)
    (resampling : Resampling) (g : ResolvedGrid) (p : List Char) : List Char :=
  output_dir ++
    ('/' :: (dropExt (basename p) ++ fname_suffix srcNodataStr resampling g))

/-- Errors `warp_image` can raise before or instead of returning. -/
inductive WarpError where
  /-- the assert of validate_bounds_for_crs fired -/
  | assertionError
  /-- TypeError or ZeroDivisionError while resolving resolution/dimensions -/
  | dimensionError
  /-- NameError: `data` referenced after a loop over zero files -/
  | nameError
deriving DecidableEq

/-- Return value of `warp_image`: a bare path, a list of paths, or the pixel
array of type `D` read from the last file. -/
inductive WarpRet (D : Type) where
  | paths : List (List Char) → WarpRet D
  | path : List Char → WarpRet D
  | arr : D → WarpRet D

/-- One iteration of the per-file loop (src/resample_tools.py lines 83-107),
threading the `outfiles` accumulator and the last-assigned `data` variable.
Reading the warped pixels of a file is abstracted by `read`. -/
def warp_step {D : Type} (read : List Char → D) (save : Bool)
    (outf : List Char → List Char) (acc : List (List Char) × Option D)
    (p : List Char) : List (List Char) × Option D :=
  ((if save then acc.1 ++ [outf p] else acc.1), some (read p))

/-- Embedding of `warp_image` (src/resample_tools.py lines 29-113).  The
delegated raster work (rasterio open, WarpedVRT, band reads, GeoTIFF writes)
is abstracted by `read`, which yields the pixel data of a source path; the
path and control-flow logic is the code of the source. -/
def warp_image {D : Type} (read : List Char → D) (tif_list : List (List Char))
    (dst_bounds : ℚ × ℚ × ℚ × ℚ) (output_dir : List Char) (dst_crs : CRS)
    (dst_height dst_width : Option ℤ) (resampling : Resampling)
    (srcNodataStr : String) (res : Option ℚ) (save : Bool) :
    Except WarpError (WarpRet D) :=
  if validate_bounds_for_crs dst_crs dst_bounds then
    let (left, bottom, right, top) := dst_bounds
    match resolve_grid left bottom right top res dst_height dst_width with
    | none => .error .dimensionError
    | some g =>
      let r := tif_list.foldl
        (warp_step read save (out_filename output_dir srcNodataStr resampling g))
        ([], none)
      if save then
        match r.1 with
        | [o] => .ok (.path o)
        | os => .ok (.paths os)
      else
        match r.2 with
        | none => .error .nameError
        | some d => .ok (.arr d)
  else
    .error .assertionError

/-! ## Theorems -/

/-- C1: for every bounds (left, bottom, right, top) and supplied (truthy)
resolution r with neither height nor width supplied, `warp_image` resolves
xres = yres = r, height = round((top - bottom) / r),
width = round((right - left) / r), and builds the affine transform
(xres, 0, left, 0, -yres, top); in particular bounds = (0, 0, 10, 10) with
res = 1 gives height = 10, width = 10, xres = yres = 1 and transform
(1, 0, 0, 0, -1, 10). -/
theorem C1_resolution_only (left bottom right top r : ℚ) (hr : r ≠ 0) :
    (∃ g : ResolvedGrid,
      resolve_grid left bottom right top (some r) none none = some g ∧
      g.xres = r ∧ g.yres = r ∧
      g.height = pyRound ((top - bottom) / r) ∧
      g.width = pyRound ((right - left) / r) ∧
      dst_transform_of left top g = ⟨r, 0, left, 0, -1 * r, top⟩) ∧
    (resolve_grid 0 0 10 10 (some 1) none none = some ⟨1, 1, 10, 10⟩ ∧
      dst_transform_of 0 10 ⟨1, 1, 10, 10⟩ = ⟨1, 0, 0, 0, -1, 10⟩) := by
  refine ⟨⟨⟨r, r, pyRound ((top - bottom) / r), pyRound ((right - left) / r)⟩,
    ?_, rfl, rfl, rfl, rfl, rfl⟩, ?_, ?_⟩
  · simp [resolve_grid, truthyZ, hr]
  · norm_num [resolve_grid, truthyZ, pyRound]
  · norm_num [dst_transform_of, AffineT.mk.injEq]

/-- Witness for C1 at bounds (0, 0, 10, 10) and resolution 1. -/
theorem C1_resolution_only_witness :
    (∃ g : ResolvedGrid,
      resolve_grid 0 0 10 10 (some 1) none none = some g ∧
      g.xres = 1 ∧ g.yres = 1 ∧
      g.height = pyRound ((10 - 0) / 1) ∧
      g.width = pyRound ((10 - 0) / 1) ∧
      dst_transform_of 0 10 g = ⟨1, 0, 0, 0, -1 * 1, 10⟩) ∧
    (resolve_grid 0 0 10 10 (some 1) none none = some ⟨1, 1, 10, 10⟩ ∧
      dst_transform_of 0 10 ⟨1, 1, 10, 10⟩ = ⟨1, 0, 0, 0, -1, 10⟩) :=
  C1_resolution_only 0 0 10 10 1 one_ne_zero

/-- C2: for a CRS with geographic units (degrees), validation passes iff top
and bottom lie in [-90, 90] and left and right lie in [-180, 180], the four
conditions independent; there is no left-right or bottom-top ordering check,
witnessed by the passing bounds (170, 80, -170, -80) with left > right and
bottom > top. -/
theorem C2_degree_validation (crs : CRS) (hc : crs.is_projected = false)
    (left bottom right top : ℚ) :
    (validate_bounds_for_crs crs (left, bottom, right, top) = true ↔
      ((-90 ≤ top ∧ top ≤ 90) ∧ (-90 ≤ bottom ∧ bottom ≤ 90) ∧
        (-180 ≤ left ∧ left ≤ 180) ∧ (-180 ≤ right ∧ right ≤ 180))) ∧
    validate_bounds_for_crs ⟨false⟩ (170, 80, -170, -80) = true := by
  constructor
  · simp only [validate_bounds_for_crs, hc]
    simp
    tauto
  · norm_num [validate_bounds_for_crs]

/-- Witness for C2 on the geographic CRS at bounds (0, 0, 10, 10). -/
theorem C2_degree_validation_witness :
    (validate_bounds_for_crs ⟨false⟩ ((0 : ℚ), 0, 10, 10) = true ↔
      ((-90 ≤ (10 : ℚ) ∧ (10 : ℚ) ≤ 90) ∧ (-90 ≤ (0 : ℚ) ∧ (0 : ℚ) ≤ 90) ∧
        (-180 ≤ (0 : ℚ) ∧ (0 : ℚ) ≤ 180) ∧
        (-180 ≤ (10 : ℚ) ∧ (10 : ℚ) ≤ 180))) ∧
    validate_bounds_for_crs ⟨false⟩ (170, 80, -170, -80) = true :=
  C2_degree_validation ⟨false⟩ rfl 0 0 10 10

/-- C3: for a CRS with projected units, validation passes iff at least one of
the four bound values has absolute magnitude strictly greater than 180. -/
theorem C3_projected_validation (crs : CRS) (hc : crs.is_projected = true)
    (left bottom right top : ℚ) :
    validate_bounds_for_crs crs (left, bottom, right, top) = true ↔
      (180 < |left| ∨ 180 < |bottom| ∨ 180 < |right| ∨ 180 < |top|) := by
  have habs : ∀ x : ℚ, (180 < x ∨ x < -180) ↔ 180 < |x| := by
    intro x
    rw [lt_abs]
    constructor
    · rintro (h | h)
      · exact Or.inl h
      · exact Or.inr (by linarith)
    · rintro (h | h)
      · exact Or.inl h
      · exact Or.inr (by linarith)
  simp only [validate_bounds_for_crs, hc]
  simp [← habs]

/-- Witness for C3 on a projected CRS at bounds (500000, 0, 600000, 4000000),
which pass the validation. -/
theorem C3_projected_validation_witness :
    (validate_bounds_for_crs ⟨true⟩ ((500000 : ℚ), 0, 600000, 4000000) = true ↔
      (180 < |(500000 : ℚ)| ∨ 180 < |(0 : ℚ)| ∨ 180 < |(600000 : ℚ)| ∨
        180 < |(4000000 : ℚ)|)) ∧
    validate_bounds_for_crs ⟨true⟩ ((500000 : ℚ), 0, 600000, 4000000) = true := by
  have h := C3_projected_validation ⟨true⟩ rfl 500000 0 600000 4000000
  refine ⟨h, h.mpr (Or.inl (by norm_num))⟩

/-- C4: with a truthy resolution and both height and width supplied (truthy),
the supplied dimensions are used unchanged; with a truthy resolution and only
one of height/width supplied, both dimensions are recomputed from the
resolution and the supplied one is discarded. -/
theorem C4_dimension_precedence (left bottom right top r : ℚ) (hr : r ≠ 0)
    (h w : ℤ) (hh : h ≠ 0) (hw : w ≠ 0) :
    resolve_grid left bottom right top (some r) (some h) (some w)
        = some ⟨r, r, h, w⟩ ∧
    resolve_grid left bottom right top (some r) (some h) none
        = some ⟨r, r, pyRound ((top - bottom) / r),
                pyRound ((right - left) / r)⟩ ∧
    resolve_grid left bottom right top (some r) none (some w)
        = some ⟨r, r, pyRound ((top - bottom) / r),
                pyRound ((right - left) / r)⟩ := by
  refine ⟨?_, ?_, ?_⟩ <;> simp [resolve_grid, truthyZ, hr, hh, hw]

/-- Witness for C4 at bounds (0, 0, 10, 10), resolution 1, height 5,
width 7. -/
theorem C4_dimension_precedence_witness :
    resolve_grid 0 0 10 10 (some 1) (some 5) (some 7)
        = some ⟨1, 1, 5, 7⟩ ∧
    resolve_grid 0 0 10 10 (some 1) (some 5) none
        = some ⟨1, 1, pyRound ((10 - 0) / 1), pyRound ((10 - 0) / 1)⟩ ∧
    resolve_grid 0 0 10 10 (some 1) none (some 7)
        = some ⟨1, 1, pyRound ((10 - 0) / 1), pyRound ((10 - 0) / 1)⟩ :=
  C4_dimension_precedence 0 0 10 10 1 one_ne_zero 5 7 (by decide) (by decide)

/-- C5: with no resolution and explicit nonzero height and width, the
resolution is back-computed per axis as extent over dimension, so that
xres * width and yres * height recover the extents exactly; in particular
bounds (0, 0, 10, 10) with height = width = 5 give xres = yres = 2. -/
theorem C5_backcomputed_resolution (left bottom right top : ℚ) (h w : ℤ)
    (hh : h ≠ 0) (hw : w ≠ 0) :
    (∃ g : ResolvedGrid,
      resolve_grid left bottom right top none (some h) (some w) = some g ∧
      g.xres = (right - left) / (w : ℚ) ∧
      g.yres = (top - bottom) / (h : ℚ) ∧
      g.xres * (w : ℚ) = right - left ∧
      g.yres * (h : ℚ) = top - bottom ∧
      g.height = h ∧ g.width = w) ∧
    resolve_grid 0 0 10 10 none (some 5) (some 5) = some ⟨2, 2, 5, 5⟩ := by
  constructor
  · refine ⟨⟨(right - left) / (w : ℚ), (top - bottom) / (h : ℚ), h, w⟩,
      ?_, rfl, rfl, ?_, ?_, rfl, rfl⟩
    · simp [resolve_grid, hh, hw]
    · exact div_mul_cancel₀ _ (by exact_mod_cast hw)
    · exact div_mul_cancel₀ _ (by exact_mod_cast hh)
  · norm_num [resolve_grid]

/-- Witness for C5 at bounds (0, 0, 10, 10) with height = width = 5. -/
theorem C5_backcomputed_resolution_witness :
    (∃ g : ResolvedGrid,
      resolve_grid 0 0 10 10 none (some 5) (some 5) = some g ∧
      g.xres = (10 - 0) / ((5 : ℤ) : ℚ) ∧
      g.yres = (10 - 0) / ((5 : ℤ) : ℚ) ∧
      g.xres * ((5 : ℤ) : ℚ) = 10 - 0 ∧
      g.yres * ((5 : ℤ) : ℚ) = 10 - 0 ∧
      g.height = 5 ∧ g.width = 5) ∧
    resolve_grid 0 0 10 10 none (some 5) (some 5) = some ⟨2, 2, 5, 5⟩ :=
  C5_backcomputed_resolution 0 0 10 10 5 5 (by decide) (by decide)

/-- C7: in the merged warp parameter set, computed keys always win over the
caller profile, every other caller key passes through unchanged, and the
compress key is "deflate" when the toggle is on and absent when it is off. -/
theorem C7_profile_merge (profile : String → Option PVal)
    (resampling : Resampling) (crs : CRS) (transform : AffineT)
    (height width : ℤ) (src_nodata nodata : ℚ) (toggle : Bool) :
    vrt_options profile resampling crs transform height width src_nodata
        nodata toggle "resampling" = some (.resamp resampling) ∧
    vrt_options profile resampling crs transform height width src_nodata
        nodata toggle "crs" = some (.crsVal crs) ∧
    vrt_options profile resampling crs transform height width src_nodata
        nodata toggle "transform" = some (.transformVal transform) ∧
    vrt_options profile resampling crs transform height width src_nodata
        nodata toggle "height" = some (.intVal height) ∧
    vrt_options profile resampling crs transform height width src_nodata
        nodata toggle "width" = some (.intVal width) ∧
    vrt_options profile resampling crs transform height width src_nodata
        nodata toggle "src_nodata" = some (.ratVal src_nodata) ∧
    vrt_options profile resampling crs transform height width src_nodata
        nodata toggle "nodata" = some (.ratVal nodata) ∧
    (∀ k : String,
      k ∉ (["resampling", "crs", "transform", "height", "width",
        "src_nodata", "nodata", "compress"] : List String) →
      vrt_options profile resampling crs transform height width src_nodata
        nodata toggle k = profile k) ∧
    (toggle = true →
      vrt_options profile resampling crs transform height width src_nodata
        nodata toggle "compress" = some (.strVal "deflate")) ∧
    (toggle = false →
      vrt_options profile resampling crs transform height width src_nodata
        nodata toggle "compress" = none) := by
  refine ⟨?_, ?_, ?_, ?_, ?_, ?_, ?_, ?_, ?_, ?_⟩
  · cases toggle <;> simp [vrt_options]
  · cases toggle <;> simp [vrt_options]
  · cases toggle <;> simp [vrt_options]
  · cases toggle <;> simp [vrt_options]
  · cases toggle <;> simp [vrt_options]
  · cases toggle <;> simp [vrt_options]
  · cases toggle <;> simp [vrt_options]
  · intro k hk
    simp only [List.mem_cons, List.not_mem_nil, or_false, not_or] at hk
    obtain ⟨h1, h2, h3, h4, h5, h6, h7, h8⟩ := hk
    cases toggle <;> simp [vrt_options, h1, h2, h3, h4, h5, h6, h7, h8]
  · rintro rfl
    simp [vrt_options]
  · rintro rfl
    simp [vrt_options]

/-- Witness for C7: a caller profile key passes through, a caller attempt to
override the height is ignored, and the compress key follows the toggle. -/
theorem C7_profile_merge_witness :
    vrt_options (fun k => if k = "custom" then some (.intVal 7) else none)
        .nearest ⟨false⟩ ⟨1, 0, 0, 0, -1, 10⟩ 10 10 0 0 true "custom"
      = (fun k => if k = "custom" then some (PVal.intVal 7) else none) "custom" ∧
    vrt_options (fun k => if k = "height" then some (.intVal 99) else none)
        .nearest ⟨false⟩ ⟨1, 0, 0, 0, -1, 10⟩ 10 10 0 0 true "height"
      = some (.intVal 10) ∧
    vrt_options (fun _ => none)
        .nearest ⟨false⟩ ⟨1, 0, 0, 0, -1, 10⟩ 10 10 0 0 true "compress"
      = some (.strVal "deflate") ∧
    vrt_options (fun _ => none)
        .nearest ⟨false⟩ ⟨1, 0, 0, 0, -1, 10⟩ 10 10 0 0 false "compress"
      = none := by
  refine ⟨?_, ?_, ?_, ?_⟩
  · exact (C7_profile_merge (fun k => if k = "custom" then some (.intVal 7) else none)
      .nearest ⟨false⟩ ⟨1, 0, 0, 0, -1, 10⟩ 10 10 0 0 true).2.2.2.2.2.2.2.1
      "custom" (by decide)
  · exact (C7_profile_merge (fun k => if k = "height" then some (.intVal 99) else none)
      .nearest ⟨false⟩ ⟨1, 0, 0, 0, -1, 10⟩ 10 10 0 0 true).2.2.2.1
  · exact (C7_profile_merge (fun _ => none)
      .nearest ⟨false⟩ ⟨1, 0, 0, 0, -1, 10⟩ 10 10 0 0 true).2.2.2.2.2.2.2.2.1 rfl
  · exact (C7_profile_merge (fun _ => none)
      .nearest ⟨false⟩ ⟨1, 0, 0, 0, -1, 10⟩ 10 10 0 0 false).2.2.2.2.2.2.2.2.2 rfl

theorem foldl_max_mem (x : ℚ) (xs : List ℚ) : xs.foldl max x ∈ x :: xs := by
  induction xs generalizing x with
  | nil => simp
  | cons z zs ih =>
    rw [List.foldl_cons]
    rcases List.mem_cons.1 (ih (max x z)) with h | h
    · rcases max_choice x z with hc | hc
      · rw [h, hc]
        exact List.mem_cons_self _ _
      · rw [h, hc]
        exact List.mem_cons_of_mem _ (List.mem_cons_self _ _)
    · exact List.mem_cons_of_mem _ (List.mem_cons_of_mem _ h)

theorem le_foldl_max (x : ℚ) (xs : List ℚ) : ∀ y ∈ x :: xs, y ≤ xs.foldl max x := by
  induction xs generalizing x with
  | nil =>
    intro y hy
    simp only [List.mem_singleton] at hy
    simp [hy]
  | cons z zs ih =>
    intro y hy
    rw [List.foldl_cons]
    rcases List.mem_cons.1 hy with rfl | hy2
    · exact le_trans (le_max_left y z) (ih (max y z) _ (List.mem_cons_self _ _))
    · rcases List.mem_cons.1 hy2 with rfl | hy3
      · exact le_trans (le_max_right x y) (ih (max x y) _ (List.mem_cons_self _ _))
      · exact ih (max x z) y (List.mem_cons_of_mem _ hy3)

theorem foldl_min_mem (x : ℚ) (xs : List ℚ) : xs.foldl min x ∈ x :: xs := by
  induction xs generalizing x with
  | nil => simp
  | cons z zs ih =>
    rw [List.foldl_cons]
    rcases List.mem_cons.1 (ih (min x z)) with h | h
    · rcases min_choice x z with hc | hc
      · rw [h, hc]
        exact List.mem_cons_self _ _
      · rw [h, hc]
        exact List.mem_cons_of_mem _ (List.mem_cons_self _ _)
    · exact List.mem_cons_of_mem _ (List.mem_cons_of_mem _ h)

theorem foldl_min_le (x : ℚ) (xs : List ℚ) : ∀ y ∈ x :: xs, xs.foldl min x ≤ y := by
  induction xs generalizing x with
  | nil =>
    intro y hy
    simp only [List.mem_singleton] at hy
    simp [hy]
  | cons z zs ih =>
    intro y hy
    rw [List.foldl_cons]
    rcases List.mem_cons.1 hy with rfl | hy2
    · exact le_trans (ih (min y z) _ (List.mem_cons_self _ _)) (min_le_left y z)
    · rcases List.mem_cons.1 hy2 with rfl | hy3
      · exact le_trans (ih (min x y) _ (List.mem_cons_self _ _)) (min_le_right x y)
      · exact ih (min x z) y (List.mem_cons_of_mem _ hy3)

theorem pymax_spec (x : ℚ) (xs : List ℚ) :
    ∃ m, pymax (x :: xs) = some m ∧ m ∈ x :: xs ∧ ∀ y ∈ x :: xs, y ≤ m :=
  ⟨xs.foldl max x, rfl, foldl_max_mem x xs, le_foldl_max x xs⟩

theorem pymin_spec (x : ℚ) (xs : List ℚ) :
    ∃ m, pymin (x :: xs) = some m ∧ m ∈ x :: xs ∧ ∀ y ∈ x :: xs, m ≤ y :=
  ⟨xs.foldl min x, rfl, foldl_min_mem x xs, foldl_min_le x xs⟩

/-- C8: `get_geojson_bounds` flattens every coordinate pair of the structure
and returns (lat max, lon min, lat min, lon max): each returned value bounds,
and is attained by, the coordinates; it fails (None here models the Python
ValueError) exactly when the structure holds zero coordinates; on a Point
(12, 34) it returns (34, 12, 34, 12). -/
theorem C8_geojson_bounds :
    (∀ g : GeoJSON, coords g = [] → get_geojson_bounds g = none) ∧
    (∀ g : GeoJSON, coords g ≠ [] →
      ∃ latMax lonMin latMin lonMax : ℚ,
        get_geojson_bounds g = some (latMax, lonMin, latMin, lonMax) ∧
        (∀ c ∈ coords g,
          latMin ≤ c.2 ∧ c.2 ≤ latMax ∧ lonMin ≤ c.1 ∧ c.1 ≤ lonMax) ∧
        (∃ c ∈ coords g, c.2 = latMax) ∧ (∃ c ∈ coords g, c.2 = latMin) ∧
        (∃ c ∈ coords g, c.1 = lonMin) ∧ (∃ c ∈ coords g, c.1 = lonMax)) ∧
    get_geojson_bounds (.point 12 34) = some (34, 12, 34, 12) := by
  refine ⟨?_, ?_, rfl⟩
  · intro g hg
    simp [get_geojson_bounds, hg, pymin]
  · intro g hg
    obtain ⟨c, cs, hcs⟩ : ∃ c cs, coords g = c :: cs := by
      cases h : coords g with
      | nil => exact absurd h hg
      | cons c cs => exact ⟨c, cs, rfl⟩
    obtain ⟨latMax, hlatMax, hlatMaxMem, hlatMaxLe⟩ :=
      pymax_spec c.2 (cs.map fun x => x.2)
    obtain ⟨latMin, hlatMin, hlatMinMem, hlatMinLe⟩ :=
      pymin_spec c.2 (cs.map fun x => x.2)
    obtain ⟨lonMax, hlonMax, hlonMaxMem, hlonMaxLe⟩ :=
      pymax_spec c.1 (cs.map fun x => x.1)
    obtain ⟨lonMin, hlonMin, hlonMinMem, hlonMinLe⟩ :=
      pymin_spec c.1 (cs.map fun x => x.1)
    have hmap2 : (coords g).map (fun x => x.2) = c.2 :: cs.map fun x => x.2 := by
      rw [hcs, List.map_cons]
    have hmap1 : (coords g).map (fun x => x.1) = c.1 :: cs.map fun x => x.1 := by
      rw [hcs, List.map_cons]
    refine ⟨latMax, lonMin, latMin, lonMax, ?_, ?_, ?_, ?_, ?_, ?_⟩
    · simp only [get_geojson_bounds, hmap1, hmap2, hlatMax, hlatMin, hlonMax,
        hlonMin]
    · intro d hd
      have hd2 : d.2 ∈ (coords g).map fun x => x.2 := List.mem_map_of_mem _ hd
      have hd1 : d.1 ∈ (coords g).map fun x => x.1 := List.mem_map_of_mem _ hd
      rw [hmap2] at hd2
      rw [hmap1] at hd1
      exact ⟨hlatMinLe _ hd2, hlatMaxLe _ hd2, hlonMinLe _ hd1, hlonMaxLe _ hd1⟩
    · have : latMax ∈ (coords g).map fun x => x.2 := by rw [hmap2]; exact hlatMaxMem
      obtain ⟨d, hd, hd2⟩ := List.mem_map.1 this
      exact ⟨d, hd, hd2⟩
    · have : latMin ∈ (coords g).map fun x => x.2 := by rw [hmap2]; exact hlatMinMem
      obtain ⟨d, hd, hd2⟩ := List.mem_map.1 this
      exact ⟨d, hd, hd2⟩
    · have : lonMin ∈ (coords g).map fun x => x.1 := by rw [hmap1]; exact hlonMinMem
      obtain ⟨d, hd, hd1⟩ := List.mem_map.1 this
      exact ⟨d, hd, hd1⟩
    · have : lonMax ∈ (coords g).map fun x => x.1 := by rw [hmap1]; exact hlonMaxMem
      obtain ⟨d, hd, hd1⟩ := List.mem_map.1 this
      exact ⟨d, hd, hd1⟩

/-- Witness for C8: a LineString with no coordinates fails, and the Point
(12, 34) yields the degenerate bounds. -/
theorem C8_geojson_bounds_witness :
    get_geojson_bounds (.lineString []) = none ∧
    (∃ latMax lonMin latMin lonMax : ℚ,
      get_geojson_bounds (.point 12 34) = some (latMax, lonMin, latMin, lonMax) ∧
      (∀ c ∈ coords (.point 12 34),
        latMin ≤ c.2 ∧ c.2 ≤ latMax ∧ lonMin ≤ c.1 ∧ c.1 ≤ lonMax) ∧
      (∃ c ∈ coords (.point 12 34), c.2 = latMax) ∧
      (∃ c ∈ coords (.point 12 34), c.2 = latMin) ∧
      (∃ c ∈ coords (.point 12 34), c.1 = lonMin) ∧
      (∃ c ∈ coords (.point 12 34), c.1 = lonMax)) ∧
    get_geojson_bounds (.point 12 34) = some (34, 12, 34, 12) :=
  ⟨C8_geojson_bounds.1 (.lineString []) rfl,
    C8_geojson_bounds.2.1 (.point 12 34) (by simp [coords]),
    C8_geojson_bounds.2.2⟩

theorem warp_foldl_fst {D : Type} (read : List Char → D) (save : Bool)
    (outf : List Char → List Char) (tifs : List (List Char))
    (os : List (List Char)) (d : Option D) :
    (tifs.foldl (warp_step read save outf) (os, d)).1
      = if save then os ++ tifs.map outf else os := by
  induction tifs generalizing os d with
  | nil => cases save <;> simp
  | cons p ps ih =>
    rw [List.foldl_cons, warp_step]
    cases save <;> simp [ih]

theorem warp_foldl_snd {D : Type} (read : List Char → D) (save : Bool)
    (outf : List Char → List Char) (tifs : List (List Char))
    (os : List (List Char)) (d : Option D) :
    (tifs.foldl (warp_step read save outf) (os, d)).2
      = match tifs.getLast? with
        | none => d
        | some p => some (read p) := by
  induction tifs generalizing os d with
  | nil => rfl
  | cons p ps ih =>
    rw [List.foldl_cons, warp_step, ih]
    cases ps with
    | nil => rfl
    | cons q qs =>
      rw [List.getLast?_cons_cons]
      cases h : (q :: qs).getLast? with
      | none => simp at h
      | some r => rfl

/-- Closed form of `warp_image` once validation has passed and the grid has
resolved: the save branch wraps the derived output paths, the no-save branch
keeps only the data of the last file. -/
theorem warp_image_eq {D : Type} (read : List Char → D)
    (tifs : List (List Char)) (left bottom right top : ℚ)
    (output_dir : List Char) (dst_crs : CRS) (dst_height dst_width : Option ℤ)
    (resampling : Resampling) (srcNodataStr : String) (res : Option ℚ)
    (save : Bool) (g : ResolvedGrid)
    (hv : validate_bounds_for_crs dst_crs (left, bottom, right, top) = true)
    (hg : resolve_grid left bottom right top res dst_height dst_width = some g) :
    warp_image read tifs (left, bottom, right, top) output_dir dst_crs
        dst_height dst_width resampling srcNodataStr res save
      = if save then
          match tifs.map (out_filename output_dir srcNodataStr resampling g) with
          | [o] => .ok (.path o)
          | os => .ok (.paths os)
        else
          match tifs.getLast? with
          | none => .error .nameError
          | some p => .ok (.arr (read p)) := by
  simp only [warp_image, hv, hg, if_true]
  rw [warp_foldl_fst, warp_foldl_snd]
  cases save with
  | true =>
    simp only [if_true, List.nil_append]
  | false =>
    simp only [if_false, Bool.false_eq_true]
    cases tifs.getLast? <;> rfl

/-- C6: return contract of `warp_image` once validation and grid resolution
succeed.  Saving with exactly one input returns the bare output path; saving
with any other input count returns the list of paths; not saving returns only
the pixel data of the last input file, so a call with save = false and two
files returns only the second one. -/
theorem C6_return_contract {D : Type} (read : List Char → D)
    (left bottom right top : ℚ) (output_dir : List Char) (dst_crs : CRS)
    (dst_height dst_width : Option ℤ) (resampling : Resampling)
    (srcNodataStr : String) (res : Option ℚ) (g : ResolvedGrid)
    (hv : validate_bounds_for_crs dst_crs (left, bottom, right, top) = true)
    (hg : resolve_grid left bottom right top res dst_height dst_width = some g) :
    (∀ p, warp_image read [p] (left, bottom, right, top) output_dir dst_crs
        dst_height dst_width resampling srcNodataStr res true
      = .ok (.path (out_filename output_dir srcNodataStr resampling g p))) ∧
    (∀ tifs : List (List Char), tifs.length ≠ 1 →
      warp_image read tifs (left, bottom, right, top) output_dir dst_crs
          dst_height dst_width resampling srcNodataStr res true
        = .ok (.paths (tifs.map (out_filename output_dir srcNodataStr resampling g)))) ∧
    (∀ (tifs : List (List Char)) p,
      warp_image read (tifs ++ [p]) (left, bottom, right, top) output_dir
          dst_crs dst_height dst_width resampling srcNodataStr res false
        = .ok (.arr (read p))) ∧
    (∀ p1 p2, warp_image read [p1, p2] (left, bottom, right, top) output_dir
        dst_crs dst_height dst_width resampling srcNodataStr res false
      = .ok (.arr (read p2))) := by
  have key := fun tifs save => warp_image_eq read tifs left bottom right top
    output_dir dst_crs dst_height dst_width resampling srcNodataStr res save g
    hv hg
  refine ⟨?_, ?_, ?_, ?_⟩
  · intro p
    rw [key [p] true]
    rfl
  · intro tifs hlen
    rw [key tifs true]
    match tifs, hlen with
    | [], _ => rfl
    | [p], h => exact absurd rfl h
    | p :: q :: rest, _ => rfl
  · intro tifs p
    rw [key (tifs ++ [p]) false]
    simp
  · intro p1 p2
    rw [key [p1, p2] false]
    rfl

theorem validate_bounds_example :
    validate_bounds_for_crs ⟨false⟩ ((0 : ℚ), 0, 10, 10) = true := by
  norm_num [validate_bounds_for_crs]

theorem resolve_grid_example :
    resolve_grid 0 0 10 10 (some 1) none none = some ⟨1, 1, 10, 10⟩ := by
  norm_num [resolve_grid, truthyZ, pyRound]

/-- Witness for C6 with two concrete input files and save = false: only the
data of the second file comes back. -/
theorem C6_return_contract_witness :
    warp_image (fun p => p.length) [['a'], ['b']] ((0 : ℚ), 0, 10, 10)
        ['o'] ⟨false⟩ none none .nearest "nan" (some 1) false
      = .ok (.arr (['b'].length)) :=
  (C6_return_contract (fun p => p.length) 0 0 10 10 ['o'] ⟨false⟩ none none
    .nearest "nan" (some 1) ⟨1, 1, 10, 10⟩ validate_bounds_example
    resolve_grid_example).2.2.2 ['a'] ['b']

/-- C10: with an empty input sequence (and bounds that pass validation and a
grid that resolves) the per-file loop runs zero times, so saving returns the
empty list of paths rather than a bare path, and not saving hits the unbound
`data` variable, a NameError. -/
theorem C10_empty_input {D : Type} (read : List Char → D)
    (left bottom right top : ℚ) (output_dir : List Char) (dst_crs : CRS)
    (dst_height dst_width : Option ℤ) (resampling : Resampling)
    (srcNodataStr : String) (res : Option ℚ) (g : ResolvedGrid)
    (hv : validate_bounds_for_crs dst_crs (left, bottom, right, top) = true)
    (hg : resolve_grid left bottom right top res dst_height dst_width = some g) :
    warp_image read [] (left, bottom, right, top) output_dir dst_crs
        dst_height dst_width resampling srcNodataStr res true
      = .ok (.paths []) ∧
    warp_image read [] (left, bottom, right, top) output_dir dst_crs
        dst_height dst_width resampling srcNodataStr res false
      = .error .nameError := by
  constructor
  · rw [warp_image_eq read [] left bottom right top output_dir dst_crs
      dst_height dst_width resampling srcNodataStr res true g hv hg]
    rfl
  · rw [warp_image_eq read [] left bottom right top output_dir dst_crs
      dst_height dst_width resampling srcNodataStr res false g hv hg]
    rfl

/-- Witness for C10 at concrete arguments. -/
theorem C10_empty_input_witness :
    warp_image (fun p => p.length) [] ((0 : ℚ), 0, 10, 10) ['o'] ⟨false⟩
        none none .nearest "nan" (some 1) true
      = .ok (.paths []) ∧
    warp_image (fun p => p.length) [] ((0 : ℚ), 0, 10, 10) ['o'] ⟨false⟩
        none none .nearest "nan" (some 1) false
      = .error .nameError :=
  C10_empty_input (fun p => p.length) 0 0 10 10 ['o'] ⟨false⟩ none none
    .nearest "nan" (some 1) ⟨1, 1, 10, 10⟩ validate_bounds_example
    resolve_grid_example

theorem pyReplaceAux_no_occ (p : Char) (ps rep : List Char) (l : List Char)
    (h : ∀ i, i < l.length → ((p :: ps).isPrefixOf (l.drop i)) = false) :
    pyReplaceAux p ps rep l = l := by
  induction l with
  | nil => rw [pyReplaceAux]
  | cons c rest ih =>
    have h' : ∀ i, i < rest.length →
        ((p :: ps).isPrefixOf (rest.drop i)) = false := by
      intro i hi
      have := h (i + 1) (by simpa using Nat.succ_lt_succ hi)
      simpa using this
    have h0 := h 0 (by simp)
    simp only [List.drop_zero] at h0
    rw [pyReplaceAux, h0]
    simp only [if_false, Bool.false_eq_true]
    rw [ih h']

theorem pyReplaceAux_boundary (p : Char) (ps rep stem : List Char)
    (h : ∀ i, i < stem.length →
      ((p :: ps).isPrefixOf ((stem ++ p :: ps).drop i)) = false) :
    pyReplaceAux p ps rep (stem ++ p :: ps) = stem ++ rep := by
  induction stem with
  | nil =>
    simp only [List.nil_append]
    rw [pyReplaceAux]
    have hpre : ((p :: ps).isPrefixOf (p :: ps)) = true := by
      simp [List.isPrefixOf_iff_prefix]
    rw [hpre]
    simp only [if_true]
    rw [List.drop_length, pyReplaceAux]
    simp
  | cons c s ih =>
    have h' : ∀ i, i < s.length →
        ((p :: ps).isPrefixOf ((s ++ p :: ps).drop i)) = false := by
      intro i hi
      have := h (i + 1) (by simpa using Nat.succ_lt_succ hi)
      simpa using this
    have h0 := h 0 (by simp)
    simp only [List.drop_zero, List.cons_append] at h0
    rw [List.cons_append, pyReplaceAux, h0]
    simp only [if_false, Bool.false_eq_true]
    rw [ih h', List.cons_append]

/-- `str.replace` leaves a string without any occurrence of the pattern
unchanged. -/
theorem pyReplace_no_occ (s rep : List Char) (p : Char) (ps : List Char)
    (h : ∀ i, i < s.length → ((p :: ps).isPrefixOf (s.drop i)) = false) :
    pyReplace s (p :: ps) rep = s :=
  pyReplaceAux_no_occ p ps rep s h

/-- `str.replace` on a string that ends in the pattern and has no earlier
occurrence substitutes exactly the final occurrence. -/
theorem pyReplace_boundary (stem rep : List Char) (p : Char) (ps : List Char)
    (h : ∀ i, i < stem.length →
      ((p :: ps).isPrefixOf ((stem ++ p :: ps).drop i)) = false) :
    pyReplace (stem ++ p :: ps) (p :: ps) rep = stem ++ rep :=
  pyReplaceAux_boundary p ps rep stem h

theorem fmt4_one : fmt4 1 = "1.0000".toList := by
  have h : pyRound ((1 : ℚ) * 10000) = 10000 := by norm_num [pyRound]
  rw [fmt4, h]
  decide

theorem fname_suffix_example :
    fname_suffix "nan" Resampling.nearest ⟨1, 1, 10, 10⟩
      = ".nodatanan_nearest_10x10_res1.0000x1.0000.tif".toList := by
  simp only [fname_suffix]
  rw [fmt4_one]
  decide

/-- Counterexample for C9: for the source path "x.png" the code performs no
substitution at all (the basename contains no ".tif"), so the output filename
is not of the claimed `<stem>.nodata...` shape. -/
theorem C9_filename_counterexample :
    out_filename "out".toList "nan" Resampling.nearest ⟨1, 1, 10, 10⟩
        "x.png".toList
      = "out/x.png".toList ∧
    spec_out_filename "out".toList "nan" Resampling.nearest ⟨1, 1, 10, 10⟩
        "x.png".toList
      = "out/x.nodatanan_nearest_10x10_res1.0000x1.0000.tif".toList ∧
    out_filename "out".toList "nan" Resampling.nearest ⟨1, 1, 10, 10⟩
        "x.png".toList
      ≠ spec_out_filename "out".toList "nan" Resampling.nearest ⟨1, 1, 10, 10⟩
        "x.png".toList := by
  have ht : ".tif".toList = ['.', 't', 'i', 'f'] := rfl
  have hbase : basename "x.png".toList = "x.png".toList := by decide
  have hcode : out_filename "out".toList "nan" Resampling.nearest
      ⟨1, 1, 10, 10⟩ "x.png".toList = "out/x.png".toList := by
    rw [out_filename, hbase, ht,
      pyReplace_no_occ "x.png".toList _ '.' ['t', 'i', 'f'] (by decide)]
    decide
  have hspec : spec_out_filename "out".toList "nan" Resampling.nearest
      ⟨1, 1, 10, 10⟩ "x.png".toList
      = "out/x.nodatanan_nearest_10x10_res1.0000x1.0000.tif".toList := by
    rw [spec_out_filename, hbase,
      show dropExt "x.png".toList = "x".toList from by decide,
      fname_suffix_example]
    decide
  refine ⟨hcode, hspec, ?_⟩
  rw [hcode, hspec]
  decide

/-- C9 amended: for every source path whose basename ends in ".tif" with no
earlier occurrence of ".tif", saving writes to
`output_dir/<stem>.nodata<value>_<resampling-name>_<h>x<w>_res<yres>x<xres>.tif`;
in general the code replaces every occurrence of the substring ".tif" in the
basename, and a basename without ".tif" passes through unchanged, receiving
no suffix. -/
theorem C9_amended_filename (output_dir : List Char) (srcNodataStr : String)
    (resampling : Resampling) (g : ResolvedGrid) (p stem : List Char)
    (hb : basename p = stem ++ ['.', 't', 'i', 'f'])
    (hocc : ∀ i, i < stem.length →
      ((['.', 't', 'i', 'f'] : List Char).isPrefixOf
        ((stem ++ ['.', 't', 'i', 'f']).drop i)) = false) :
    out_filename output_dir srcNodataStr resampling g p
      = output_dir ++ ('/' :: (stem ++ fname_suffix srcNodataStr resampling g)) ∧
    ∀ q : List Char,
      (∀ i, i < (basename q).length →
        ((['.', 't', 'i', 'f'] : List Char).isPrefixOf
          ((basename q).drop i)) = false) →
      out_filename output_dir srcNodataStr resampling g q
        = output_dir ++ ('/' :: basename q) := by
  have ht : ".tif".toList = ['.', 't', 'i', 'f'] := rfl
  constructor
  · rw [out_filename, hb, ht,
      pyReplace_boundary stem _ '.' ['t', 'i', 'f'] hocc]
  · intro q hq
    rw [out_filename, ht, pyReplace_no_occ (basename q) _ '.' ['t', 'i', 'f'] hq]

/-- Witness for C9 amended at the source path "data/a.tif" with nodata "nan",
nearest resampling and a 10 by 10 unit-resolution grid. -/
theorem C9_amended_filename_witness :
    out_filename "out".toList "nan" Resampling.nearest ⟨1, 1, 10, 10⟩
        "data/a.tif".toList
      = "out/a.nodatanan_nearest_10x10_res1.0000x1.0000.tif".toList :=
  ((C9_amended_filename "out".toList "nan" Resampling.nearest ⟨1, 1, 10, 10⟩
      "data/a.tif".toList "a".toList (by decide) (by decide)).1).trans
    (by rw [fname_suffix_example]; decide)

end ResampleTools
